import Mathlib

/-!
Shallow embedding of the `Api` facade of the `telegram-bot` crate
(`src/lib/src/api.rs`), together with proofs of the specification's
claims about it.

The facade is modelled as pure Lean functions.  Each asynchronous
operation is split into the synchronous stage (what runs when the
method is called, before the future is returned) and the awaited stage
(what the returned future computes when polled to completion).  The
awaited stage additionally returns the list of observable events —
connector calls and typed-deserialize calls — so that call-count
invariants can be stated.  The connector carries an abstract completion
time (in arbitrary time units) for the exchange, used only by the
deadline semantics of `send_timeout`.
-/

namespace TelegramBot

/-- Wire request: a transport-ready description of one HTTP exchange,
opaque to the facade (`telegram_bot_raw::HttpRequest`). -/
structure HttpRequest where
  payload : String
deriving DecidableEq, Repr

/-- Wire response: a transport-level HTTP reply, opaque to the facade. -/
structure HttpResponse where
  body : String
deriving DecidableEq, Repr

/-- Modelled from the spec: the error taxonomy of the `errors` module,
which is not under `src/`.  Section 7 of the spec lists five caller-facing
kinds; section 3 adds an internal deadline-expired kind that the facade
translates away. -/
inductive ErrorKind where
  | serializeFailure
  | transportFailure
  | httpFailure
  | apiFailure
  | deserializeFailure
  | deadlineExpired
deriving DecidableEq, Repr

/-- Modelled from the spec: an error value is a tagged union of failure
kinds; the message stands for whatever payload the kind carries. -/
structure Error where
  kind : ErrorKind
  message : String
deriving DecidableEq, Repr

/-- Connector capability (`crate::connector::Connector`): one operation
taking the token and a wire request and yielding a wire response or a
transport error.  The `elapsed` field is the abstract completion time of
the exchange, used by the deadline semantics. -/
structure Connector where
  request : String → HttpRequest → Except Error HttpResponse
  elapsed : String → HttpRequest → Nat

/-- Modelled from the spec: `default_connector()` from the `connector`
module (not under `src/`).  Its selection policy is an implementation
choice and not part of the contract, so any fixed connector value
represents it. -/
def default_connector : Connector :=
  { request := fun _ _ => Except.error ⟨ErrorKind.transportFailure, "no transport"⟩
    elapsed := fun _ _ => 0 }

/-- Typed request capability: a value that has already fixed its
serialize outcome (`Request::serialize(self)` consumes the request) and
declares its associated response type through the deserializer
(`<Req::Response as ResponseType>::deserialize`).  `α` is the typed
response value type. -/
structure TypedRequest (α : Type) where
  serialize : Except Error HttpRequest
  response : HttpResponse → Except Error α

/-- Shared interior of the handle (`struct ApiInner`). -/
structure ApiInner where
  token : String
  connector : Connector

/-- Main type for sending requests (`pub struct Api(Arc<ApiInner>)`). -/
structure Api where
  inner : ApiInner

/-- Duplication of the handle (`#[derive(Clone)]` over the `Arc`):
the duplicate shares the same interior. -/
def Api.clone (api : Api) : Api := ⟨api.inner⟩

/-- Constructor `Api::new`: builds the handle from a token with the
default connector. -/
def Api.new (token : String) : Api :=
  ⟨{ token := token, connector := default_connector }⟩

/-- Modelled from the spec: the update stream (`crate::stream::UpdatesStream`,
not under `src/`) holds a duplicate of the `Api` handle; its long-poll
mechanics are out of core scope. -/
structure UpdatesStream where
  api : Api

/-- Modelled from the spec: `UpdatesStream::new(&api)` stores a duplicate
of the handle. -/
def UpdatesStream.new (api : Api) : UpdatesStream := ⟨api.clone⟩

/-- Method `Api::stream`: vends the update stream. -/
def Api.stream (api : Api) : UpdatesStream := UpdatesStream.new api

/-- Observable events of one awaited call: a call to
`Connector::request` or a call to the typed deserialize step. -/
inductive Event where
  | connectorCall (token : String) (req : HttpRequest)
  | deserializeCall (resp : HttpResponse)
deriving DecidableEq, Repr

/-- Predicate picking out connector calls in a trace. -/
def Event.isConnectorCall : Event → Bool
  | Event.connectorCall _ _ => true
  | Event.deserializeCall _ => false

/-- Predicate picking out deserialize calls in a trace. -/
def Event.isDeserializeCall : Event → Bool
  | Event.connectorCall _ _ => false
  | Event.deserializeCall _ => true

/-- Private path `Api::send_http_request`: one connector exchange, then
— only on transport success — one typed deserialization.  Returns the
result together with the trace of events. -/
def Api.send_http_request {α : Type} (api : Api)
    (deserialize : HttpResponse → Except Error α)
    (request : HttpRequest) : Except Error α × List Event :=
  match api.inner.connector.request api.inner.token request with
  | Except.error e =>
      (Except.error e, [Event.connectorCall api.inner.token request])
  | Except.ok http_response =>
      match deserialize http_response with
      | Except.error e =>
          (Except.error e,
           [Event.connectorCall api.inner.token request,
            Event.deserializeCall http_response])
      | Except.ok response =>
          (Except.ok response,
           [Event.connectorCall api.inner.token request,
            Event.deserializeCall http_response])

/-- State of the future returned by `Api::send`: the handle duplicate
and the serialize outcome, both captured synchronously before the future
is returned (`let api = self.clone(); let request = request.serialize();`). -/
structure SendFuture (α : Type) where
  api : Api
  request : Except Error HttpRequest
  deserialize : HttpResponse → Except Error α

/-- Method `Api::send`: the synchronous stage.  It clones the handle and
runs the request's serialize step, returning the future. -/
def Api.send {α : Type} (api : Api) (req : TypedRequest α) : SendFuture α :=
  { api := api.clone, request := req.serialize, deserialize := req.response }

/-- Awaiting the future of `Api::send`
(`async move { api.send_http_request::<Req::Response>(request?).await }`):
a serialize failure resolves to that error with no events; otherwise the
private path runs. -/
def SendFuture.await {α : Type} (fut : SendFuture α) :
    Except Error α × List Event :=
  match fut.request with
  | Except.error e => (Except.error e, [])
  | Except.ok request => fut.api.send_http_request fut.deserialize request

/-- State of the future returned by `Api::send_timeout`: like `SendFuture`
but carrying the deadline duration (in the same abstract time units as
`Connector.elapsed`). -/
structure SendTimeoutFuture (α : Type) where
  api : Api
  request : Except Error HttpRequest
  deserialize : HttpResponse → Except Error α
  duration : Nat

/-- Method `Api::send_timeout`: the synchronous stage.  As in `send`,
the handle is cloned and the serialize step runs before the future is
returned. -/
def Api.send_timeout {α : Type} (api : Api) (req : TypedRequest α)
    (duration : Nat) : SendTimeoutFuture α :=
  { api := api.clone, request := req.serialize
    deserialize := req.response, duration := duration }

/-- Awaiting the future of `Api::send_timeout`.  The body first unwraps
the stored serialize outcome (`request?`), which happens before
`Timeout::new` is evaluated, so a serialize failure resolves to that
error regardless of the duration.  Otherwise `Timeout` wraps the private
path: if the exchange completes within the deadline the inner outcome is
mapped `Ok(v) ↦ Ok(Some(v))`, `Err(e) ↦ Err(e)`; if the deadline fires
first the result is `Ok(None)` and the connector call that was initiated
is cancelled before the deserialize step runs. -/
def SendTimeoutFuture.await {α : Type} (fut : SendTimeoutFuture α) :
    Except Error (Option α) × List Event :=
  match fut.request with
  | Except.error e => (Except.error e, [])
  | Except.ok request =>
      if fut.api.inner.connector.elapsed fut.api.inner.token request ≤ fut.duration then
        match fut.api.send_http_request fut.deserialize request with
        | (Except.ok v, trace) => (Except.ok (some v), trace)
        | (Except.error e, trace) => (Except.error e, trace)
      else
        (Except.ok none, [Event.connectorCall fut.api.inner.token request])

/-- Proposition used by the deadline claims: the end-to-end exchange of
request `req` on handle `api` completes within duration `d`.  A request
whose serialize step fails resolves immediately (within any duration);
otherwise completion is governed by the connector's completion time. -/
def Api.completesWithin {α : Type} (api : Api) (req : TypedRequest α)
    (d : Nat) : Bool :=
  match req.serialize with
  | Except.error _ => true
  | Except.ok request => api.inner.connector.elapsed api.inner.token request ≤ d

/-! Concrete fixtures used by the witness theorems. -/

/-- Test connector that answers every exchange with the canned wire
response `"body"` after 1 time unit. -/
def echoConnector : Connector :=
  { request := fun _ _ => Except.ok ⟨"body"⟩
    elapsed := fun _ _ => 1 }

/-- Test connector that fails every exchange with a transport error. -/
def failConnector : Connector :=
  { request := fun _ _ => Except.error ⟨ErrorKind.transportFailure, "connection reset"⟩
    elapsed := fun _ _ => 1 }

/-- Test connector that answers with the canned wire response only
after 5 time units. -/
def slowConnector : Connector :=
  { request := fun _ _ => Except.ok ⟨"body"⟩
    elapsed := fun _ _ => 5 }

/-- Handle over the echo connector. -/
def echoApi : Api := ⟨{ token := "token", connector := echoConnector }⟩

/-- Handle over the failing connector. -/
def failApi : Api := ⟨{ token := "token", connector := failConnector }⟩

/-- Handle over the slow connector. -/
def slowApi : Api := ⟨{ token := "token", connector := slowConnector }⟩

/-- Typed test request whose serialize step succeeds and whose response
type deserializes the canned wire response to the value 42. -/
def getMe : TypedRequest Nat :=
  { serialize := Except.ok ⟨"getMe"⟩
    response := fun r =>
      if r.body = "body" then Except.ok 42
      else Except.error ⟨ErrorKind.deserializeFailure, "parse"⟩ }

/-- Typed test request whose serialize step deterministically fails. -/
def badReq : TypedRequest Nat :=
  { serialize := Except.error ⟨ErrorKind.serializeFailure, "invalid parameters"⟩
    response := fun _ => Except.error ⟨ErrorKind.deserializeFailure, "parse"⟩ }

/-! Claim theorems. -/

/-- C2: for every request whose serialize step succeeds, if the connector
returns a wire response that the associated response type deserializes to
value `v`, then awaiting `send` yields `Ok v`. -/
theorem send_roundtrip {α : Type} (api : Api) (req : TypedRequest α)
    (wire : HttpRequest) (resp : HttpResponse) (v : α)
    (hser : req.serialize = Except.ok wire)
    (hconn : api.inner.connector.request api.inner.token wire = Except.ok resp)
    (hdes : req.response resp = Except.ok v) :
    (api.send req).await.fst = Except.ok v := by
  simp [Api.send, SendFuture.await, Api.send_http_request, Api.clone,
    hser, hconn, hdes]

/-- Witness for C2 at the echo connector and the `getMe` fixture. -/
theorem send_roundtrip_witness :
    (echoApi.send getMe).await.fst = Except.ok 42 :=
  send_roundtrip echoApi getMe ⟨"getMe"⟩ ⟨"body"⟩ 42 rfl rfl rfl

/-- C3: for every request whose serialize step fails, awaiting the future
returned by `send` or by `send_timeout` performs zero connector calls. -/
theorem serialize_failure_zero_connector_calls {α : Type} (api : Api)
    (req : TypedRequest α) (d : Nat) (e : Error)
    (h : req.serialize = Except.error e) :
    (api.send req).await.snd.countP Event.isConnectorCall = 0 ∧
    (api.send_timeout req d).await.snd.countP Event.isConnectorCall = 0 := by
  simp [Api.send, Api.send_timeout, SendFuture.await, SendTimeoutFuture.await, h]

/-- Witness for C3 at the `badReq` fixture with zero duration. -/
theorem serialize_failure_zero_connector_calls_witness :
    (echoApi.send badReq).await.snd.countP Event.isConnectorCall = 0 ∧
    (echoApi.send_timeout badReq 0).await.snd.countP Event.isConnectorCall = 0 :=
  serialize_failure_zero_connector_calls echoApi badReq 0
    ⟨ErrorKind.serializeFailure, "invalid parameters"⟩ rfl

/-- C4: for every request whose connector exchange returns a transport
error, the typed deserialize step is never invoked and the future resolves
to that transport error. -/
theorem transport_error_skips_deserialize {α : Type} (api : Api)
    (req : TypedRequest α) (wire : HttpRequest) (e : Error)
    (hser : req.serialize = Except.ok wire)
    (hconn : api.inner.connector.request api.inner.token wire = Except.error e) :
    (api.send req).await.fst = Except.error e ∧
    (api.send req).await.snd.countP Event.isDeserializeCall = 0 := by
  simp [Api.send, SendFuture.await, Api.send_http_request, Api.clone,
    hser, hconn, Event.isDeserializeCall]

/-- Witness for C4 at the failing connector. -/
theorem transport_error_skips_deserialize_witness :
    (failApi.send getMe).await.fst =
      Except.error ⟨ErrorKind.transportFailure, "connection reset"⟩ ∧
    (failApi.send getMe).await.snd.countP Event.isDeserializeCall = 0 :=
  transport_error_skips_deserialize failApi getMe ⟨"getMe"⟩
    ⟨ErrorKind.transportFailure, "connection reset"⟩ rfl rfl

/-- C5: `send` runs the request's serialize step synchronously at call
time — the returned future already stores the serialize outcome — and a
serialize failure is captured inside the future: awaiting it resolves to
that error. -/
theorem send_serializes_synchronously {α : Type} (api : Api)
    (req : TypedRequest α) :
    (api.send req).request = req.serialize ∧
    ∀ e, req.serialize = Except.error e →
      (api.send req).await.fst = Except.error e := by
  refine ⟨rfl, fun e h => ?_⟩
  simp [Api.send, SendFuture.await, h]

/-- Witness for C5 at the `badReq` fixture. -/
theorem send_serializes_synchronously_witness :
    (echoApi.send badReq).request = badReq.serialize ∧
    (echoApi.send badReq).await.fst =
      Except.error ⟨ErrorKind.serializeFailure, "invalid parameters"⟩ :=
  ⟨(send_serializes_synchronously echoApi badReq).1,
   (send_serializes_synchronously echoApi badReq).2
     ⟨ErrorKind.serializeFailure, "invalid parameters"⟩ rfl⟩

/-- C9: for every request whose serialize step succeeds, awaiting the
future returned by `send` to completion performs exactly one connector
call. -/
theorem send_exactly_one_connector_call {α : Type} (api : Api)
    (req : TypedRequest α) (wire : HttpRequest)
    (hser : req.serialize = Except.ok wire) :
    (api.send req).await.snd.countP Event.isConnectorCall = 1 := by
  simp only [Api.send, SendFuture.await, hser, Api.clone]
  unfold Api.send_http_request
  cases hc : Api.inner ⟨api.inner⟩ |>.connector.request (Api.inner ⟨api.inner⟩).token wire with
  | error e => simp [Event.isConnectorCall]
  | ok resp =>
      cases hd : req.response resp with
      | error e => simp [hd, Event.isConnectorCall]
      | ok v => simp [hd, Event.isConnectorCall]

/-- Witness for C9 at the echo connector. -/
theorem send_exactly_one_connector_call_witness :
    (echoApi.send getMe).await.snd.countP Event.isConnectorCall = 1 :=
  send_exactly_one_connector_call echoApi getMe ⟨"getMe"⟩ rfl

/-- C10: for every request whose serialize step fails and every duration,
`send_timeout` stores the serialize outcome eagerly at call time, and
resolves to the serialization error — never to `Ok none` — because the
serialize result is unwrapped before the deadline timer is constructed. -/
theorem send_timeout_never_masks_serialize_error {α : Type} (api : Api)
    (req : TypedRequest α) (d : Nat) (e : Error)
    (h : req.serialize = Except.error e) :
    (api.send_timeout req d).request = req.serialize ∧
    (api.send_timeout req d).await.fst = Except.error e ∧
    (api.send_timeout req d).await.fst ≠ Except.ok none := by
  refine ⟨rfl, ?_, ?_⟩ <;>
    simp [Api.send_timeout, SendTimeoutFuture.await, h]

/-- Witness for C10 at the `badReq` fixture with zero duration. -/
theorem send_timeout_never_masks_serialize_error_witness :
    (echoApi.send_timeout badReq 0).request = badReq.serialize ∧
    (echoApi.send_timeout badReq 0).await.fst =
      Except.error ⟨ErrorKind.serializeFailure, "invalid parameters"⟩ ∧
    (echoApi.send_timeout badReq 0).await.fst ≠ Except.ok none :=
  send_timeout_never_masks_serialize_error echoApi badReq 0
    ⟨ErrorKind.serializeFailure, "invalid parameters"⟩ rfl

/-- Unfolding lemma for the awaited stage of `send_timeout`, with the
handle duplicate resolved to the original handle's interior. -/
theorem send_timeout_await_eq {α : Type} (api : Api) (req : TypedRequest α)
    (d : Nat) :
    (api.send_timeout req d).await =
      match req.serialize with
      | Except.error e => (Except.error e, [])
      | Except.ok wire =>
          if api.inner.connector.elapsed api.inner.token wire ≤ d then
            match api.send_http_request req.response wire with
            | (Except.ok v, trace) => (Except.ok (some v), trace)
            | (Except.error e, trace) => (Except.error e, trace)
          else
            (Except.ok none, [Event.connectorCall api.inner.token wire]) := rfl

/-- Unfolding lemma for the awaited stage of `send`, with the handle
duplicate resolved to the original handle's interior. -/
theorem send_await_eq {α : Type} (api : Api) (req : TypedRequest α) :
    (api.send req).await =
      match req.serialize with
      | Except.error e => (Except.error e, [])
      | Except.ok wire => api.send_http_request req.response wire := rfl

/-- Specialization of `send_timeout_await_eq` to a succeeding serialize
step. -/
theorem send_timeout_await_of_ok {α : Type} (api : Api) (req : TypedRequest α)
    (d : Nat) (wire : HttpRequest) (hs : req.serialize = Except.ok wire) :
    (api.send_timeout req d).await =
      (if api.inner.connector.elapsed api.inner.token wire ≤ d then
        match api.send_http_request req.response wire with
        | (Except.ok v, trace) => (Except.ok (some v), trace)
        | (Except.error e, trace) => (Except.error e, trace)
      else
        (Except.ok none, [Event.connectorCall api.inner.token wire])) := by
  rw [send_timeout_await_eq, hs]

/-- Specialization of `send_await_eq` to a succeeding serialize step. -/
theorem send_await_of_ok {α : Type} (api : Api) (req : TypedRequest α)
    (wire : HttpRequest) (hs : req.serialize = Except.ok wire) :
    (api.send req).await = api.send_http_request req.response wire := by
  rw [send_await_eq, hs]

/-- Value of `completesWithin` when the serialize step succeeds: it is
decided by the connector's completion time. -/
theorem completesWithin_of_ok {α : Type} (api : Api) (req : TypedRequest α)
    (d : Nat) (wire : HttpRequest) (hs : req.serialize = Except.ok wire) :
    api.completesWithin req d =
      decide (api.inner.connector.elapsed api.inner.token wire ≤ d) := by
  unfold Api.completesWithin
  rw [hs]

/-- Value of `completesWithin` when the serialize step fails: the future
resolves immediately, so the exchange completes within any duration. -/
theorem completesWithin_of_error {α : Type} (api : Api) (req : TypedRequest α)
    (d : Nat) (e : Error) (hs : req.serialize = Except.error e) :
    api.completesWithin req d = true := by
  unfold Api.completesWithin
  rw [hs]

/-- C6: whenever the whole serialize-plus-exchange-plus-deserialize
sequence completes within duration `d`, `send_timeout` behaves identically
to `send` with the successful value wrapped in `some`: outcome `Ok v`
becomes `Ok (some v)`, outcome `Err e` stays `Err e`, and the event trace
is the same. -/
theorem send_timeout_refines_send {α : Type} (api : Api)
    (req : TypedRequest α) (d : Nat)
    (h : api.completesWithin req d = true) :
    (api.send_timeout req d).await =
      ((api.send req).await.fst.map some, (api.send req).await.snd) := by
  rw [send_timeout_await_eq, send_await_eq]
  unfold Api.completesWithin at h
  cases hs : req.serialize with
  | error e => simp [Except.map]
  | ok wire =>
      rw [hs] at h
      simp only [decide_eq_true_eq] at h
      simp only [if_pos h]
      cases hr : api.send_http_request req.response wire with
      | mk fst trace => cases fst <;> simp [Except.map]

/-- Witness for C6: with a 1-time-unit exchange and a 2-unit deadline the
timeout variant returns the `send` outcome wrapped in `some`. -/
theorem send_timeout_refines_send_witness :
    (echoApi.send_timeout getMe 2).await =
      ((echoApi.send getMe).await.fst.map some, (echoApi.send getMe).await.snd) :=
  send_timeout_refines_send echoApi getMe 2 (by decide)

/-- C1: `send_timeout` resolves to `Ok none` exactly when the end-to-end
exchange does not complete within the duration; it never surfaces an
error of the deadline-expired kind (given that the serialize step, the
connector, and the deserialize step never produce that internal kind);
and whenever the exchange completes within the deadline, any failure
resolves to the same error as in `send`. -/
theorem send_timeout_deadline_semantics {α : Type} (api : Api)
    (req : TypedRequest α) (d : Nat)
    (hser : ∀ e, req.serialize = Except.error e →
        e.kind ≠ ErrorKind.deadlineExpired)
    (hconn : ∀ r e, api.inner.connector.request api.inner.token r = Except.error e →
        e.kind ≠ ErrorKind.deadlineExpired)
    (hdes : ∀ r e, req.response r = Except.error e →
        e.kind ≠ ErrorKind.deadlineExpired) :
    ((api.send_timeout req d).await.fst = Except.ok none ↔
        api.completesWithin req d = false) ∧
    (∀ e, (api.send_timeout req d).await.fst = Except.error e →
        e.kind ≠ ErrorKind.deadlineExpired) ∧
    (api.completesWithin req d = true →
      ∀ e, (api.send req).await.fst = Except.error e →
        (api.send_timeout req d).await.fst = Except.error e) := by
  cases hs : req.serialize with
  | error e =>
      have htimeout : (api.send_timeout req d).await = (Except.error e, []) := by
        rw [send_timeout_await_eq, hs]
      have hsend : (api.send req).await = (Except.error e, []) := by
        rw [send_await_eq, hs]
      have hcw := completesWithin_of_error api req d e hs
      refine ⟨by simp [htimeout, hcw], ?_, ?_⟩
      · intro e0 h0
        rw [htimeout] at h0
        simp only [Except.error.injEq] at h0
        exact h0 ▸ hser e hs
      · intro _ e0 h0
        rw [hsend] at h0
        simp only [Except.error.injEq] at h0
        rw [htimeout]
        exact congrArg Except.error h0
  | ok wire =>
      have hsend := send_await_of_ok api req wire hs
      have hcw := completesWithin_of_ok api req d wire hs
      by_cases ht : api.inner.connector.elapsed api.inner.token wire ≤ d
      · have hcwt : api.completesWithin req d = true := by
          rw [hcw]
          exact decide_eq_true ht
        cases hc : api.inner.connector.request api.inner.token wire with
        | error e =>
            have hhttp : api.send_http_request req.response wire =
                (Except.error e, [Event.connectorCall api.inner.token wire]) := by
              simp [Api.send_http_request, hc]
            have htimeout : (api.send_timeout req d).await =
                (Except.error e, [Event.connectorCall api.inner.token wire]) := by
              rw [send_timeout_await_of_ok api req d wire hs, if_pos ht, hhttp]
            rw [hhttp] at hsend
            refine ⟨by simp [htimeout, hcwt], ?_, ?_⟩
            · intro e0 h0
              rw [htimeout] at h0
              simp only [Except.error.injEq] at h0
              exact h0 ▸ hconn wire e hc
            · intro _ e0 h0
              simp [hsend] at h0
              subst h0
              simp [htimeout]
        | ok resp =>
            cases hd : req.response resp with
            | error e =>
                have hhttp : api.send_http_request req.response wire =
                    (Except.error e,
                     [Event.connectorCall api.inner.token wire,
                      Event.deserializeCall resp]) := by
                  simp [Api.send_http_request, hc, hd]
                have htimeout : (api.send_timeout req d).await =
                    (Except.error e,
                     [Event.connectorCall api.inner.token wire,
                      Event.deserializeCall resp]) := by
                  rw [send_timeout_await_of_ok api req d wire hs, if_pos ht, hhttp]
                rw [hhttp] at hsend
                refine ⟨by simp [htimeout, hcwt], ?_, ?_⟩
                · intro e0 h0
                  rw [htimeout] at h0
                  simp only [Except.error.injEq] at h0
                  exact h0 ▸ hdes resp e hd
                · intro _ e0 h0
                  simp [hsend] at h0
                  subst h0
                  simp [htimeout]
            | ok v =>
                have hhttp : api.send_http_request req.response wire =
                    (Except.ok v,
                     [Event.connectorCall api.inner.token wire,
                      Event.deserializeCall resp]) := by
                  simp [Api.send_http_request, hc, hd]
                have htimeout : (api.send_timeout req d).await =
                    (Except.ok (some v),
                     [Event.connectorCall api.inner.token wire,
                      Event.deserializeCall resp]) := by
                  rw [send_timeout_await_of_ok api req d wire hs, if_pos ht, hhttp]
                rw [hhttp] at hsend
                refine ⟨by simp [htimeout, hcwt], ?_, ?_⟩
                · intro e0 h0
                  rw [htimeout] at h0
                  simp at h0
                · intro _ e0 h0
                  rw [hsend] at h0
                  simp at h0
      · have hcwf : api.completesWithin req d = false := by
          rw [hcw]
          exact decide_eq_false ht
        have htimeout : (api.send_timeout req d).await =
            (Except.ok none, [Event.connectorCall api.inner.token wire]) := by
          rw [send_timeout_await_of_ok api req d wire hs, if_neg ht]
        refine ⟨by simp [htimeout, hcwf], ?_, ?_⟩
        · intro e0 h0
          rw [htimeout] at h0
          simp at h0
        · intro hcw0
          rw [hcwf] at hcw0
          simp at hcw0

/-- Witness for C1: with a 5-time-unit exchange and a 2-unit deadline the
exchange does not complete within the deadline and the result is
`Ok none`. -/
theorem send_timeout_deadline_semantics_witness :
    (((slowApi.send_timeout getMe 2).await.fst = Except.ok none ↔
        slowApi.completesWithin getMe 2 = false) ∧
    (∀ e, (slowApi.send_timeout getMe 2).await.fst = Except.error e →
        e.kind ≠ ErrorKind.deadlineExpired) ∧
    (slowApi.completesWithin getMe 2 = true →
      ∀ e, (slowApi.send getMe).await.fst = Except.error e →
        (slowApi.send_timeout getMe 2).await.fst = Except.error e)) ∧
    (slowApi.send_timeout getMe 2).await.fst = Except.ok none :=
  ⟨send_timeout_deadline_semantics slowApi getMe 2
      (by intro e h; simp [getMe] at h)
      (by intro r e h; simp [slowApi, slowConnector] at h)
      (by
        intro r e h
        by_cases hb : r.body = "body" <;> simp [getMe, hb] at h
        cases h
        decide),
   rfl⟩

/-- C7: a duplicate produced by `Api::clone` shares the same interior
state (token and connector) as the original, and every subsequent
operation — `send`, `send_timeout`, `stream` — is observationally
identical on the duplicate and on the original. -/
theorem clone_observationally_equal {α : Type} (api : Api)
    (req : TypedRequest α) (d : Nat) :
    api.clone.inner = api.inner ∧
    (api.clone.send req).await = (api.send req).await ∧
    (api.clone.send_timeout req d).await = (api.send_timeout req d).await ∧
    api.clone.stream = api.stream :=
  ⟨rfl, rfl, rfl, rfl⟩

end TelegramBot
